import Mathlib

/-!
Verification of the imaging pipeline of `dicom_workstation_lite`
(`backend/dicom_processor.py`, plus the upload validation of
`backend/api.py`), as a shallow embedding in Lean 4.

Modelling conventions:
* numpy float arrays are modelled as grids (`List (List ·)`) of exact
  rationals; at the inputs the properties are about (integer window
  widths/levels, values at the window bounds and midpoint) all float32/float64
  computations of the source are exact, so `ℚ` is faithful there.
* numpy elementwise division is total: dividing by zero emits a warning and
  yields `±inf` / `nan`, it does not raise.  This is captured by the `EFloat`
  codomain of `ediv`.
* `astype(np.uint8)` is a truncating (toward zero) cast; every call site in
  the source feeds it values in `[0, 255]` or `nan` (the cast of `nan` is
  platform dependent; `0` on x86-64, which `toUint8` adopts — no theorem
  below depends on that choice).
* Python exceptions are modelled with `Except String`; a `try/except`
  becomes a `match` on the body's result.
-/

/-- A 2-dimensional numpy array with entries in `α`. -/
abbrev Grid (α : Type) := List (List α)

/-- Elementwise map over a grid (a numpy elementwise ufunc). -/
def gridMap (f : α → β) (g : Grid α) : Grid β := g.map (List.map f)

/-- All elements of a grid in row-major order (numpy reductions such as
`.min()` / `.max()` range over these). -/
def gridElems (g : Grid α) : List α := g.flatten

/-- Model of `ndarray.min()` on the flattened element list (the source only calls it
on non-empty arrays; the `[]` case is junk, never relied upon). -/
def listMin : List ℚ → ℚ
  | [] => 0
  | x :: xs => xs.foldl min x

/-- Model of `ndarray.max()` on the flattened element list. -/
def listMax : List ℚ → ℚ
  | [] => 0
  | x :: xs => xs.foldl max x

/-- An IEEE-style float value: an exact finite rational, an infinity, or
`nan`.  Finite rounding is irrelevant at the inputs the claims are about, so
finite values are exact. -/
inductive EFloat where
  | fin (q : ℚ)
  | pinf
  | ninf
  | nan
deriving DecidableEq, Repr

/-- numpy elementwise division of finite values: by a nonzero denominator it
is exact; by zero it yields `±inf` (sign of the numerator) or `nan` for
`0/0` — a warning, never an exception. -/
def ediv (a b : ℚ) : EFloat :=
  if b ≠ 0 then .fin (a / b)
  else if 0 < a then .pinf
  else if a < 0 then .ninf
  else .nan

/-- Model of `np.clip(x, 0.0, 1.0)`: clamps finite values and infinities into
`[0, 1]`; `nan` propagates (numpy's `minimum`/`maximum` propagate `nan`). -/
def eclip01 : EFloat → EFloat
  | .fin q => .fin (min (max q 0) 1)
  | .pinf => .fin 1
  | .ninf => .fin 0
  | .nan => .nan

/-- Multiplication by the scalar `255.0`. -/
def emul255 : EFloat → EFloat
  | .fin q => .fin (q * 255)
  | .pinf => .pinf
  | .ninf => .ninf
  | .nan => .nan

/-- Model of `astype(np.uint8)` — truncating cast.  All source call sites feed it
values in `[0, 255]` (where truncation toward zero is `⌊·⌋`) or `nan`
(platform-dependent; `0` on x86-64). -/
def toUint8 : EFloat → ℕ
  | .fin q => (⌊q⌋).toNat
  | _ => 0

/-- Whether the value is a finite float (neither infinite nor `nan`). -/
def EFloat.isFinite : EFloat → Bool
  | .fin _ => true
  | _ => false

/-! ## Window/level presets (`WINDOW_PRESETS`, dicom_processor.py:14-20) -/

/-- The table `WINDOW_PRESETS`: the five named (window, level) presets. -/
def WINDOW_PRESETS : List (String × ℚ × ℚ) :=
  [("default", (400, 40)),
   ("lung", (1500, -600)),
   ("bone", (2000, 300)),
   ("brain", (80, 40)),
   ("liver", (150, 30))]

/-- Model of `preset in WINDOW_PRESETS` / `WINDOW_PRESETS[preset]` — dictionary
lookup by preset name. -/
def presetLookup (name : String) : Option (ℚ × ℚ) :=
  (WINDOW_PRESETS.find? (fun p => p.1 == name)).map (fun p => p.2)

/-! ## `apply_window_level` (dicom_processor.py:140-206) -/

/-- The window/level resolution of `apply_window_level` (lines 170-180):
both customs supplied → customs; recognised preset → its pair; otherwise the
`default` pair `(400, 40)`. -/
def resolveWindow (preset : String) (customWindow customLevel : Option ℤ) :
    ℚ × ℚ :=
  match customWindow, customLevel with
  | some w, some l => ((w : ℚ), (l : ℚ))
  | _, _ =>
    match presetLookup preset with
    | some wl => wl
    | none => ((400 : ℚ), (40 : ℚ))

/-- The bound `lower_bound = level - (window / 2.0)` (line 187). -/
def lowerBound (window level : ℚ) : ℚ := level - window / 2

/-- The per-element window transform (lines 191-197):
`((np.clip((v - lower_bound) / window, 0.0, 1.0)) * 255.0).astype(np.uint8)`. -/
def windowElem (window level : ℚ) (v : ℚ) : ℕ :=
  toUint8 (emul255 (eclip01 (ediv (v - lowerBound window level) window)))

/-- The whole-array window transform of the `try` block. -/
def windowCore (window level : ℚ) (g : Grid ℚ) : Grid ℕ :=
  gridMap (windowElem window level) g

/-- The value of one element of the fallback expression (lines 204-205)
before the `uint8` cast:
`(v - pixel_array.min()) / (pixel_array.max() - pixel_array.min()) * 255`.
Note the source has no guard here: on a constant grid the denominator is
zero. -/
def fallbackPre (g : Grid ℚ) (v : ℚ) : EFloat :=
  emul255 (ediv (v - listMin (gridElems g))
    (listMax (gridElems g) - listMin (gridElems g)))

/-- The min-max normalisation fallback of the `except` branch
(lines 201-206). -/
def minMaxFallback (g : Grid ℚ) : Grid ℕ :=
  gridMap (fun v => toUint8 (fallbackPre g v)) g

/-- The `try` block of `apply_window_level`.  Over ndarray inputs every
operation in the block is total (numpy elementwise arithmetic on arrays
never raises; division by zero yields non-finite values), so the body
always returns `.ok`. -/
def applyWindowTry (g : Grid ℚ) (preset : String)
    (customWindow customLevel : Option ℤ) : Except String (Grid ℕ) :=
  let wl := resolveWindow preset customWindow customLevel
  .ok (windowCore wl.1 wl.2 g)

/-- The function `apply_window_level` (lines 140-206): the `try` block, with the
`except` branch degrading to the min-max fallback. -/
def apply_window_level (g : Grid ℚ) (preset : String)
    (customWindow customLevel : Option ℤ) : Grid ℕ :=
  match applyWindowTry g preset customWindow customLevel with
  | .ok out => out
  | .error _ => minMaxFallback g

/-! ### Elementwise behaviour of the window transform -/

/-- With a nonzero window width the division is exact and the transform is
the clip-scale-truncate composite on rationals. -/
lemma windowElem_fin (w l v : ℚ) (hw : w ≠ 0) :
    windowElem w l v
      = (⌊min (max ((v - lowerBound w l) / w) 0) 1 * 255⌋).toNat := by
  unfold windowElem ediv
  rw [if_pos hw]
  rfl

/-- A value equal to the level lands exactly at `0.5`, which scales to
`127.5` and truncates to `127`. -/
lemma windowElem_midpoint (w l : ℚ) (hw : 0 < w) : windowElem w l l = 127 := by
  rw [windowElem_fin w l l (ne_of_gt hw)]
  have h : (l - lowerBound w l) / w = 1 / 2 := by
    unfold lowerBound
    field_simp
    ring
  rw [h]
  norm_num
  rfl

/-- Values at or below the lower window bound map to `0`. -/
lemma windowElem_low (w l v : ℚ) (hw : 0 < w) (hv : v ≤ lowerBound w l) :
    windowElem w l v = 0 := by
  rw [windowElem_fin w l v (ne_of_gt hw)]
  have h : (v - lowerBound w l) / w ≤ 0 :=
    div_nonpos_of_nonpos_of_nonneg (by linarith) (le_of_lt hw)
  have hmax : max ((v - lowerBound w l) / w) 0 = 0 := max_eq_right h
  rw [hmax]
  norm_num

/-- Values at or above the upper window bound map to `255`. -/
lemma windowElem_high (w l v : ℚ) (hw : 0 < w) (hv : l + w / 2 ≤ v) :
    windowElem w l v = 255 := by
  rw [windowElem_fin w l v (ne_of_gt hw)]
  have hbound : w ≤ v - lowerBound w l := by
    unfold lowerBound at *
    linarith
  have h1 : (1 : ℚ) ≤ (v - lowerBound w l) / w := by
    rw [le_div_iff₀ hw]
    linarith
  have h0 : (0 : ℚ) ≤ (v - lowerBound w l) / w := by linarith
  rw [max_eq_left h0, min_eq_right h1]
  norm_num
  rfl

/-! ## The parsed DICOM container (`pydicom.Dataset`)

Only the attributes the pipeline reads are modelled.  An absent attribute is
`none` (so `getattr(ds, attr, default)` is `Option.getD`).  Accessing the
`pixel_array` property may itself raise, which is modelled by an `Except`
inside the option; `metadataRaises` models a field access in
`extract_metadata`'s `try` block raising (e.g. `str()` on a malformed
`PatientName`), which triggers the `except` branch. -/

/-- A Python exception raised by the `pixel_array` property:
`isAttribError` distinguishes `AttributeError` from other exceptions. -/
structure PyExc where
  isAttribError : Bool
  msg : String
deriving DecidableEq, Repr

/-- The parsed DICOM container.  String-valued tags are `Option String`
(the numeric tags are carried as their string rendering; only presence and
the default matter to the claims).  Raw pixel samples are integers. -/
structure Dataset where
  pixelData : Option (Except PyExc (Grid ℤ)) := none
  RescaleSlope : Option ℚ := none
  RescaleIntercept : Option ℚ := none
  PatientID : Option String := none
  PatientName : Option String := none
  StudyInstanceUID : Option String := none
  StudyDate : Option String := none
  StudyTime : Option String := none
  StudyDescription : Option String := none
  Modality : Option String := none
  SeriesInstanceUID : Option String := none
  SeriesNumber : Option String := none
  SeriesDescription : Option String := none
  SOPInstanceUID : Option String := none
  InstanceNumber : Option String := none
  Rows : Option String := none
  Columns : Option String := none
  metadataRaises : Bool := false

/-! ## `extract_metadata` (dicom_processor.py:23-91) -/

/-- A metadata dictionary: ordered keys mapped to optional string values. -/
abbrev Metadata := List (String × Option String)

/-- The function `extract_metadata`: the `try` block builds the 14-key dictionary
(lines 50-74); on any exception the `except` branch returns the minimal
9-key dictionary (lines 81-91).  Note the error-path dictionary omits
`study_description`, `series_number`, `series_description`, `rows` and
`columns`. -/
def extract_metadata (ds : Dataset) : Metadata :=
  if ds.metadataRaises then
    [("patient_id", none),
     ("patient_name", some "Unknown"),
     ("study_uid", none),
     ("study_date", none),
     ("study_time", none),
     ("modality", none),
     ("series_uid", none),
     ("sop_uid", none),
     ("instance_number", none)]
  else
    [("patient_id", ds.PatientID),
     ("patient_name", some (ds.PatientName.getD "Unknown")),
     ("study_uid", ds.StudyInstanceUID),
     ("study_date", ds.StudyDate),
     ("study_time", ds.StudyTime),
     ("study_description", ds.StudyDescription),
     ("modality", ds.Modality),
     ("series_uid", ds.SeriesInstanceUID),
     ("series_number", ds.SeriesNumber),
     ("series_description", ds.SeriesDescription),
     ("sop_uid", ds.SOPInstanceUID),
     ("instance_number", ds.InstanceNumber),
     ("rows", ds.Rows),
     ("columns", ds.Columns)]

/-! ## `get_pixel_array` (dicom_processor.py:94-137) -/

/-- The `try` block of `get_pixel_array` (lines 117-132): missing
`pixel_array` attribute raises `ValueError` (line 120, itself caught by the
outer handlers); a raising accessor propagates; otherwise the raw samples
are cast to float and the rescale transform is applied when it is not the
identity. -/
def getPixelArrayTry (ds : Dataset) : Except PyExc (Grid ℚ) :=
  match ds.pixelData with
  | none =>
    .error ⟨false, "DICOM dataset does not contain pixel data"⟩
  | some (.error e) => .error e
  | some (.ok raw) =>
    let pixel_array : Grid ℚ := gridMap (fun z : ℤ => (z : ℚ)) raw
    let rescale_slope := ds.RescaleSlope.getD 1
    let rescale_intercept := ds.RescaleIntercept.getD 0
    if rescale_slope ≠ 1 ∨ rescale_intercept ≠ 0 then
      .ok (gridMap (fun v => v * rescale_slope + rescale_intercept)
        pixel_array)
    else
      .ok pixel_array

/-- The function `get_pixel_array`: the `try` block wrapped by the two handlers
(lines 134-137), which re-raise as `ValueError` with a prefix naming the
failure and the original message embedded (the cause is wrapped, not
swallowed). -/
def get_pixel_array (ds : Dataset) : Except String (Grid ℚ) :=
  match getPixelArrayTry ds with
  | .ok g => .ok g
  | .error e =>
    if e.isAttribError then
      .error ("Cannot access pixel data: " ++ e.msg)
    else
      .error ("Error processing pixel data: " ++ e.msg)

/-! ## `array_to_png_bytes` (dicom_processor.py:209-253) -/

/-- A numpy array tagged with its dtype, as `array_to_png_bytes` receives
it: either a float array or an already-`uint8` array. -/
inductive NDArray where
  | floatArr (values : Grid ℚ)
  | uint8Arr (values : Grid ℕ)
deriving DecidableEq, Repr

/-- The 8-byte PNG signature every PNG stream begins with. -/
def PNG_SIGNATURE : List ℕ := [0x89, 0x50, 0x4E, 0x47, 0x0D, 0x0A, 0x1A, 0x0A]

/-- Model of `PIL.Image.save(..., format='PNG')` on a grayscale `uint8` array: PIL
produces a standards-conformant PNG stream, which begins with the 8-byte
PNG signature; the chunk data after the signature is abstracted as the
grid's dimensions and row-major samples. -/
def pilSavePng (g : Grid ℕ) : List ℕ :=
  PNG_SIGNATURE ++ g.length :: (g.headD []).length :: gridElems g

/-- One element of the min-max normalisation
`((q - pixel_min) / (pixel_max - pixel_min) * 255).astype(np.uint8)`
(lines 237-238). -/
def normElem (v : Grid ℚ) (q : ℚ) : ℕ :=
  toUint8 (.fin ((q - listMin (gridElems v))
    / (listMax (gridElems v) - listMin (gridElems v)) * 255))

/-- The function `array_to_png_bytes`: `uint8` input is encoded as-is; other dtypes are
min-max normalised to `[0, 255]` first, with the `pixel_max > pixel_min`
guard (lines 236-240) mapping constant grids to all zeros.  `.min()` on an
empty array raises, which the handler wraps into `ValueError`
(lines 252-253). -/
def array_to_png_bytes : NDArray → Except String (List ℕ)
  | .uint8Arr v => .ok (pilSavePng v)
  | .floatArr v =>
    if (gridElems v).isEmpty then
      .error "Error converting array to PNG: zero-size array to reduction operation minimum which has no identity"
    else
      if listMax (gridElems v) > listMin (gridElems v) then
        .ok (pilSavePng (gridMap (normElem v) v))
      else
        .ok (pilSavePng (gridMap (fun _ => 0) v))

/-! ## Upload validation (`upload_dicom_files`, api.py:154-192) -/

/-- Python truthiness test `not metadata.get(key)` on an optional string:
`None` and the empty string are both falsy. -/
def pyFalsy : Option String → Bool
  | none => true
  | some s => s == ""

/-- Model of `metadata.get(key)` on the extracted dictionary. -/
def metaGet (m : Metadata) (key : String) : Option String :=
  (m.lookup key).getD none

/-- The rejection or acceptance of one uploaded file, after parsing
(api.py lines 154-171): HTTP 400 if `study_uid` or `sop_uid` is falsy,
otherwise the file is copied into storage under `<sop_uid>.dcm`
(`storage.copy_dicom_file`, storage.py:210-239). -/
def processUploadFile (ds : Dataset) : Except (ℕ × String) String :=
  let metadata := extract_metadata ds
  if pyFalsy (metaGet metadata "study_uid") then
    .error (400, "Missing StudyInstanceUID")
  else if pyFalsy (metaGet metadata "sop_uid") then
    .error (400, "Missing SOPInstanceUID")
  else
    .ok (((metaGet metadata "sop_uid").getD "") ++ ".dcm")

/-! ## Helper lemmas -/

lemma foldl_min_le_init (l : List ℚ) (a : ℚ) : l.foldl min a ≤ a := by
  induction l generalizing a with
  | nil => simp
  | cons x xs ih =>
    exact le_trans (ih (min a x)) (min_le_left a x)

lemma foldl_min_le_mem (l : List ℚ) (a y : ℚ) (hy : y ∈ l) :
    l.foldl min a ≤ y := by
  induction l generalizing a with
  | nil => cases hy
  | cons x xs ih =>
    rcases List.mem_cons.mp hy with h | h
    · subst h
      exact le_trans (foldl_min_le_init xs (min a y)) (min_le_right a y)
    · exact ih (min a x) h

lemma init_le_foldl_max (l : List ℚ) (a : ℚ) : a ≤ l.foldl max a := by
  induction l generalizing a with
  | nil => simp
  | cons x xs ih =>
    exact le_trans (le_max_left a x) (ih (max a x))

lemma mem_le_foldl_max (l : List ℚ) (a y : ℚ) (hy : y ∈ l) :
    y ≤ l.foldl max a := by
  induction l generalizing a with
  | nil => cases hy
  | cons x xs ih =>
    rcases List.mem_cons.mp hy with h | h
    · subst h
      exact le_trans (le_max_right a y) (init_le_foldl_max xs (max a y))
    · exact ih (max a x) h

/-- The value `ndarray.min()` bounds every element from below. -/
lemma listMin_le (l : List ℚ) (y : ℚ) (hy : y ∈ l) : listMin l ≤ y := by
  match l with
  | [] => cases hy
  | x :: xs =>
    rcases List.mem_cons.mp hy with h | h
    · subst h
      exact foldl_min_le_init xs y
    · exact foldl_min_le_mem xs x y h

/-- The value `ndarray.max()` bounds every element from above. -/
lemma le_listMax (l : List ℚ) (y : ℚ) (hy : y ∈ l) : y ≤ listMax l := by
  match l with
  | [] => cases hy
  | x :: xs =>
    rcases List.mem_cons.mp hy with h | h
    · subst h
      exact init_le_foldl_max xs y
    · exact mem_le_foldl_max xs x y h

lemma gridElems_gridMap (f : α → β) (g : Grid α) :
    gridElems (gridMap f g) = (gridElems g).map f := by
  unfold gridElems gridMap
  exact (List.map_flatten f g).symm

lemma gridMap_gridMap (f : β → γ) (h : α → β) (g : Grid α) :
    gridMap f (gridMap h g) = gridMap (fun x => f (h x)) g := by
  unfold gridMap
  rw [List.map_map]
  simp [Function.comp, List.map_map]

lemma gridMap_congr (f f' : α → β) (g : Grid α)
    (h : ∀ v ∈ gridElems g, f v = f' v) : gridMap f g = gridMap f' g := by
  unfold gridMap
  refine List.map_congr_left (fun row hrow => ?_)
  refine List.map_congr_left (fun v hv => ?_)
  exact h v (List.mem_flatten.mpr ⟨row, hrow, hv⟩)

lemma gridMap_lengths (f : α → β) (g : Grid α) :
    (gridMap f g).map List.length = g.map List.length := by
  unfold gridMap
  rw [List.map_map]
  simp [Function.comp]

/-! ## Claim theorems -/

/-- C2: For every window width > 0 and level, `apply_window_level` maps an
input element exactly equal to the level to the display value 127 (0.5*255
with truncating conversion), never 128; a grid whose values all equal the
level maps to a grid of all 127. -/
theorem C2_window_midpoint (w l : ℚ) (cw cl : ℤ) (p : String) (g : Grid ℚ)
    (hw : 0 < w) (hcw : 0 < cw) (hg : ∀ v ∈ gridElems g, v = (cl : ℚ)) :
    (windowElem w l l = 127 ∧ windowElem w l l ≠ 128)
  ∧ apply_window_level g p (some cw) (some cl)
      = gridMap (fun _ => 127) g := by
  refine ⟨⟨windowElem_midpoint w l hw, ?_⟩, ?_⟩
  · rw [windowElem_midpoint w l hw]
    decide
  · show windowCore (cw : ℚ) (cl : ℚ) g = gridMap (fun _ => 127) g
    unfold windowCore
    refine gridMap_congr _ _ g (fun v hv => ?_)
    rw [hg v hv]
    exact windowElem_midpoint (cw : ℚ) (cl : ℚ) (by exact_mod_cast hcw)

/-- C2 witness: instantiated at width 400, level 40 and the one-element
grid `[[40]]`. -/
theorem C2_window_midpoint_witness :
    (windowElem 400 40 40 = 127 ∧ windowElem 400 40 40 ≠ 128)
  ∧ apply_window_level [[(40 : ℚ)]] "default" (some 400) (some 40)
      = gridMap (fun _ => 127) [[(40 : ℚ)]] :=
  C2_window_midpoint 400 40 400 40 "default" [[(40 : ℚ)]] (by norm_num)
    (by norm_num) (by simp [gridElems])

/-- C3: For every window width > 0 and level, the transform maps a value
exactly equal to `level - width/2` to 0 and `level + width/2` to 255;
every element at or below the lower bound maps to 0 and every element at
or above the upper bound maps to 255 (clipping, never wrap-around). -/
theorem C3_window_boundaries (w l v : ℚ) (hw : 0 < w) :
    windowElem w l (l - w / 2) = 0
  ∧ windowElem w l (l + w / 2) = 255
  ∧ (v ≤ l - w / 2 → windowElem w l v = 0)
  ∧ (l + w / 2 ≤ v → windowElem w l v = 255)
  ∧ windowCore w l [[l - w / 2, l + w / 2]] = [[0, 255]] := by
  have hlow : ∀ u : ℚ, u ≤ l - w / 2 → windowElem w l u = 0 := by
    intro u hu
    exact windowElem_low w l u hw (by unfold lowerBound; linarith)
  have hhigh : ∀ u : ℚ, l + w / 2 ≤ u → windowElem w l u = 255 :=
    fun u hu => windowElem_high w l u hw hu
  refine ⟨hlow _ le_rfl, hhigh _ le_rfl, hlow v, hhigh v, ?_⟩
  unfold windowCore gridMap
  simp [hlow _ le_rfl, hhigh _ le_rfl]

/-- C3 witness: width 400, level 40 — the bounds −160 and 240 map to 0 and
255, and the out-of-range value 3071 clips to 255. -/
theorem C3_window_boundaries_witness :
    windowElem 400 40 (40 - 400 / 2) = 0
  ∧ windowElem 400 40 (40 + 400 / 2) = 255
  ∧ windowElem 400 40 3071 = 255 :=
  ⟨(C3_window_boundaries 400 40 0 (by norm_num)).1,
   (C3_window_boundaries 400 40 0 (by norm_num)).2.1,
   (C3_window_boundaries 400 40 3071 (by norm_num)).2.2.2.1 (by norm_num)⟩

/-- C5: window resolution order — both customs supplied take precedence
over any preset; each of the five recognised preset names yields its
(width, level) pair; an unrecognised name silently degrades to the default
pair (400, 40); a partial custom override does not take effect; and
`apply_window_level` on preset "nonexistent" equals the result on preset
"default" for every grid. -/
theorem C5_preset_resolution (g : Grid ℚ) (p : String) (cw cl : ℤ) :
    apply_window_level g p (some cw) (some cl) = windowCore (cw : ℚ) (cl : ℚ) g
  ∧ apply_window_level g "default" none none = windowCore 400 40 g
  ∧ apply_window_level g "lung" none none = windowCore 1500 (-600) g
  ∧ apply_window_level g "bone" none none = windowCore 2000 300 g
  ∧ apply_window_level g "brain" none none = windowCore 80 40 g
  ∧ apply_window_level g "liver" none none = windowCore 150 30 g
  ∧ (presetLookup p = none →
      apply_window_level g p none none = windowCore 400 40 g)
  ∧ apply_window_level g p (some cw) none = apply_window_level g p none none
  ∧ apply_window_level g p none (some cl) = apply_window_level g p none none
  ∧ apply_window_level g "nonexistent" none none
      = apply_window_level g "default" none none := by
  refine ⟨rfl, rfl, rfl, rfl, rfl, rfl, ?_, rfl, rfl, rfl⟩
  intro hnone
  show windowCore (resolveWindow p none none).1 (resolveWindow p none none).2 g
      = windowCore 400 40 g
  unfold resolveWindow
  rw [hnone]

/-- C5 witness: instantiated at the empty preset name (unrecognised) with
custom pair (1000, 500) and a singleton grid. -/
theorem C5_preset_resolution_witness :
    apply_window_level [[(0 : ℚ)]] "" (some 1000) (some 500)
      = windowCore 1000 500 [[(0 : ℚ)]]
  ∧ apply_window_level [[(0 : ℚ)]] "" none none = windowCore 400 40 [[(0 : ℚ)]] :=
  ⟨(C5_preset_resolution [[(0 : ℚ)]] "" 1000 500).1,
   (C5_preset_resolution [[(0 : ℚ)]] "" 1000 500).2.2.2.2.2.2.1 (by rfl)⟩

/-- C9: calling `apply_window_level` with a custom window width of 0 does
not raise and does not take the exception-triggered min-max fallback path:
the elementwise division by zero produces non-finite values rather than an
exception, the `try` block completes, and the returned grid is the result
of clipping and casting those non-finite values (255 above the degenerate
bound, 0 below it), not the min-max-normalised fallback result. -/
theorem C9_zero_width_no_fallback (g : Grid ℚ) (p : String) (cl : ℤ) (v : ℚ) :
    applyWindowTry g p (some 0) (some cl) = .ok (windowCore 0 (cl : ℚ) g)
  ∧ apply_window_level g p (some 0) (some cl) = windowCore 0 (cl : ℚ) g
  ∧ (ediv (v - lowerBound 0 (cl : ℚ)) 0).isFinite = false
  ∧ (lowerBound 0 (cl : ℚ) < v → windowElem 0 (cl : ℚ) v = 255)
  ∧ (v < lowerBound 0 (cl : ℚ) → windowElem 0 (cl : ℚ) v = 0)
  ∧ apply_window_level [[5, 10]] "default" (some 0) (some 0) = [[255, 255]]
  ∧ minMaxFallback [[5, 10]] = [[0, 255]]
  ∧ apply_window_level [[5, 10]] "default" (some 0) (some 0)
      ≠ minMaxFallback [[5, 10]] := by
  have htry : applyWindowTry g p (some 0) (some cl)
      = .ok (windowCore 0 (cl : ℚ) g) := by
    unfold applyWindowTry resolveWindow
    norm_num
  have hnf : (ediv (v - lowerBound 0 (cl : ℚ)) 0).isFinite = false := by
    unfold ediv
    norm_num
    split_ifs <;> rfl
  have hhi : ∀ u : ℚ, lowerBound 0 (cl : ℚ) < u →
      windowElem 0 (cl : ℚ) u = 255 := by
    intro u hu
    unfold windowElem ediv
    rw [if_neg (by norm_num), if_pos (by linarith)]
    show (⌊(1 : ℚ) * 255⌋).toNat = 255
    norm_num
    decide
  have hlo : ∀ u : ℚ, u < lowerBound 0 (cl : ℚ) →
      windowElem 0 (cl : ℚ) u = 0 := by
    intro u hu
    unfold windowElem ediv
    rw [if_neg (by norm_num), if_neg (by linarith), if_pos (by linarith)]
    norm_num [eclip01, emul255, toUint8]
  have hconc : apply_window_level [[5, 10]] "default" (some 0) (some 0)
      = [[255, 255]] := by
    show windowCore ((0 : ℤ) : ℚ) ((0 : ℤ) : ℚ) [[5, 10]] = [[255, 255]]
    norm_num [windowCore, gridMap, windowElem, lowerBound, ediv, eclip01,
      emul255, toUint8]
    decide
  have hfall : minMaxFallback [[5, 10]] = [[0, 255]] := by
    norm_num [minMaxFallback, fallbackPre, gridMap, gridElems, listMin,
      listMax, ediv, emul255, toUint8]
    decide
  refine ⟨htry, ?_, hnf, hhi v, hlo v, hconc, hfall, ?_⟩
  · unfold apply_window_level
    rw [htry]
  · rw [hconc, hfall]
    decide

/-- C9 witness: width 0, level 0, value 5 (above the degenerate bound). -/
theorem C9_zero_width_no_fallback_witness :
    windowElem 0 ((0 : ℤ) : ℚ) 5 = 255 :=
  (C9_zero_width_no_fallback [[5, 10]] "default" 0 5).2.2.2.1
    (by norm_num [lowerBound])

/-- C1: on the constant grid `[[7,7],[7,7]]`, `array_to_png_bytes` does
take its `max > min` guard and returns the all-zero 8-bit grid; but the
min-max fallback expression of `apply_window_level` has no such guard —
its denominator `max - min` is zero, so every pre-cast element is the
`nan` of a `0/0` division, not a well-defined all-zero value.  This proves
the code falls short of the claim on the fallback half (the spec itself
flags the missing guard as a defect to fix). -/
theorem C1_constant_grid_fallback_divzero :
    array_to_png_bytes (.floatArr [[7, 7], [7, 7]])
      = .ok (pilSavePng [[0, 0], [0, 0]])
  ∧ listMax (gridElems ([[7, 7], [7, 7]] : Grid ℚ))
      - listMin (gridElems ([[7, 7], [7, 7]] : Grid ℚ)) = 0
  ∧ (∀ v ∈ gridElems ([[7, 7], [7, 7]] : Grid ℚ),
      fallbackPre [[7, 7], [7, 7]] v = .nan) := by
  refine ⟨?_, ?_, ?_⟩
  · norm_num [array_to_png_bytes, gridElems, listMin, listMax, gridMap]
  · norm_num [gridElems, listMin, listMax]
  · intro v hv
    have hv7 : v = 7 := by
      have : v ∈ ([7, 7, 7, 7] : List ℚ) := hv
      simp at this
      exact this
    subst hv7
    norm_num [fallbackPre, gridElems, listMin, listMax, ediv, emul255]

/-! ### Behaviour of `get_pixel_array` by container shape -/

lemma getPixelArrayTry_none (ds : Dataset) (h : ds.pixelData = none) :
    getPixelArrayTry ds
      = .error ⟨false, "DICOM dataset does not contain pixel data"⟩ := by
  unfold getPixelArrayTry
  rw [h]

lemma getPixelArrayTry_raise (ds : Dataset) (e : PyExc)
    (h : ds.pixelData = some (.error e)) : getPixelArrayTry ds = .error e := by
  unfold getPixelArrayTry
  rw [h]

lemma getPixelArrayTry_ok (ds : Dataset) (raw : Grid ℤ)
    (h : ds.pixelData = some (.ok raw)) :
    getPixelArrayTry ds
      = .ok (gridMap (fun z : ℤ =>
          (z : ℚ) * ds.RescaleSlope.getD 1 + ds.RescaleIntercept.getD 0) raw) := by
  unfold getPixelArrayTry
  rw [h]
  dsimp only
  by_cases hc : ds.RescaleSlope.getD 1 ≠ 1 ∨ ds.RescaleIntercept.getD 0 ≠ 0
  · rw [if_pos hc, gridMap_gridMap]
  · rw [if_neg hc]
    push_neg at hc
    rw [hc.1, hc.2]
    simp [mul_one, add_zero]

lemma get_pixel_array_wrap (ds : Dataset) (e : PyExc)
    (h : getPixelArrayTry ds = .error e) :
    get_pixel_array ds = .error
      ((if e.isAttribError then "Cannot access pixel data: "
        else "Error processing pixel data: ") ++ e.msg) := by
  unfold get_pixel_array
  rw [h]
  by_cases ha : e.isAttribError <;> simp [ha]

lemma get_pixel_array_of_ok (ds : Dataset) (g : Grid ℚ)
    (h : getPixelArrayTry ds = .ok g) : get_pixel_array ds = .ok g := by
  unfold get_pixel_array
  rw [h]

/-- C4: for every container with a sample grid, `get_pixel_array` returns
a float grid of the same dimensions whose every element equals
`raw*slope+intercept` (slope defaulting to 1, intercept to 0); when the
transform is the identity it is skipped, and the result is observably
identical to applying it — the direct float cast of the raw samples. -/
theorem C4_rescale_linearity (ds : Dataset) (raw : Grid ℤ)
    (h : ds.pixelData = some (.ok raw)) :
    get_pixel_array ds
      = .ok (gridMap (fun z : ℤ =>
          (z : ℚ) * ds.RescaleSlope.getD 1 + ds.RescaleIntercept.getD 0) raw)
  ∧ (ds.RescaleSlope.getD 1 = 1 → ds.RescaleIntercept.getD 0 = 0 →
      get_pixel_array ds = .ok (gridMap (fun z : ℤ => (z : ℚ)) raw))
  ∧ (∀ out, get_pixel_array ds = .ok out →
      out.map List.length = raw.map List.length) := by
  have hmain : get_pixel_array ds
      = .ok (gridMap (fun z : ℤ =>
          (z : ℚ) * ds.RescaleSlope.getD 1 + ds.RescaleIntercept.getD 0) raw) :=
    get_pixel_array_of_ok ds _ (getPixelArrayTry_ok ds raw h)
  refine ⟨hmain, fun h1 h0 => ?_, fun out hout => ?_⟩
  · rw [hmain, h1, h0]
    simp [mul_one, add_zero]
  · have hout2 : out = gridMap (fun z : ℤ =>
        (z : ℚ) * ds.RescaleSlope.getD 1 + ds.RescaleIntercept.getD 0) raw :=
      (Except.ok.inj (hmain.symm.trans hout)).symm
    rw [hout2, gridMap_lengths]

/-- A concrete container for the C4 witness: a 2×2 sample grid with
rescale slope 2 and intercept −3. -/
def dsC4 : Dataset :=
  { pixelData := some (.ok [[1, 2], [3, 4]]),
    RescaleSlope := some 2,
    RescaleIntercept := some (-3) }

/-- C4 witness: the rescale theorem instantiated at `dsC4`. -/
theorem C4_rescale_linearity_witness :
    get_pixel_array dsC4
      = .ok (gridMap (fun z : ℤ =>
          (z : ℚ) * dsC4.RescaleSlope.getD 1 + dsC4.RescaleIntercept.getD 0)
          [[1, 2], [3, 4]]) :=
  (C4_rescale_linearity dsC4 [[1, 2], [3, 4]] rfl).1

/-- C6: `get_pixel_array` raises a `ValueError` (the spec's
`PixelDataError`) whose message mentions the absence of pixel data when
the container exposes no sample grid — the raise site fires exactly on
the absent attribute (the iff below; the generic handler then prepends its
context prefix) — on any other extraction error it raises a `ValueError`
wrapping the underlying cause, the original message kept as a suffix, not
swallowed; with a sample grid present it succeeds. -/
theorem C6_missing_pixel_data (ds : Dataset) :
    (ds.pixelData = none →
      get_pixel_array ds = .error
        "Error processing pixel data: DICOM dataset does not contain pixel data")
  ∧ (getPixelArrayTry ds
        = .error ⟨false, "DICOM dataset does not contain pixel data"⟩
      ↔ (ds.pixelData = none
        ∨ ds.pixelData
            = some (.error ⟨false, "DICOM dataset does not contain pixel data"⟩)))
  ∧ (∀ e : PyExc, ds.pixelData = some (.error e) →
      get_pixel_array ds = .error
        ((if e.isAttribError then "Cannot access pixel data: "
          else "Error processing pixel data: ") ++ e.msg))
  ∧ (∀ raw, ds.pixelData = some (.ok raw) →
      ∃ out, get_pixel_array ds = .ok out) := by
  refine ⟨fun hn => ?_, ⟨fun htry => ?_, fun hd => ?_⟩,
    fun e he => get_pixel_array_wrap ds e (getPixelArrayTry_raise ds e he),
    fun raw hraw =>
      ⟨_, get_pixel_array_of_ok ds _ (getPixelArrayTry_ok ds raw hraw)⟩⟩
  · have := get_pixel_array_wrap ds
      ⟨false, "DICOM dataset does not contain pixel data"⟩
      (getPixelArrayTry_none ds hn)
    simpa using this
  · cases hpd : ds.pixelData with
    | none => exact Or.inl rfl
    | some body =>
      cases body with
      | error e =>
        have he := getPixelArrayTry_raise ds e hpd
        rw [he] at htry
        exact Or.inr (by rw [Except.error.inj htry])
      | ok raw =>
        have hok := getPixelArrayTry_ok ds raw hpd
        rw [hok] at htry
        cases htry
  · rcases hd with hn | he
    · exact getPixelArrayTry_none ds hn
    · exact getPixelArrayTry_raise ds _ he

/-- A container exposing no pixel data at all. -/
def dsNoPixel : Dataset := {}

/-- C6 witness: the error theorem instantiated at a container with no
pixel data. -/
theorem C6_missing_pixel_data_witness :
    get_pixel_array dsNoPixel = .error
      "Error processing pixel data: DICOM dataset does not contain pixel data" :=
  (C6_missing_pixel_data dsNoPixel).1 rfl

/-! ### `extract_metadata` key sets (C7) -/

/-- The 14 keys of the success-path dictionary (lines 50-74). -/
def fullMetadataKeys : List String :=
  ["patient_id", "patient_name", "study_uid", "study_date", "study_time",
   "study_description", "modality", "series_uid", "series_number",
   "series_description", "sop_uid", "instance_number", "rows", "columns"]

/-- The 9 keys of the error-path dictionary (lines 81-91). -/
def minimalMetadataKeys : List String :=
  ["patient_id", "patient_name", "study_uid", "study_date", "study_time",
   "modality", "series_uid", "sop_uid", "instance_number"]

/-- A container on which a metadata field access raises. -/
def dsRaising : Dataset := { metadataRaises := true }

/-- C7 counterexample: the claim says the same fixed key set is present in
every returned mapping, but the error path returns 9 keys while the
success path returns 14 — in particular `rows` is present after a
successful extraction and omitted after a failing one. -/
theorem C7_counterexample :
    (extract_metadata dsRaising).map Prod.fst
      ≠ (extract_metadata dsNoPixel).map Prod.fst
  ∧ ((extract_metadata dsNoPixel).map Prod.fst).contains "rows" = true
  ∧ ((extract_metadata dsRaising).map Prod.fst).contains "rows" = false := by
  refine ⟨?_, by decide, by decide⟩
  decide

/-- C7 as amended: `extract_metadata` is total (never raises); the success
path returns the fixed 14-key mapping and the error path the fixed 9-key
mapping (omitting `study_description`, `series_number`,
`series_description`, `rows`, `columns`); on both paths `patient_name`
defaults to the literal string "Unknown" and, with every source field
absent, all other keys carry `null`. -/
theorem C7_metadata_defaults (ds : Dataset) :
    ((extract_metadata ds).map Prod.fst
      = if ds.metadataRaises then minimalMetadataKeys else fullMetadataKeys)
  ∧ metaGet (extract_metadata ds) "patient_name"
      = some (if ds.metadataRaises then "Unknown" else ds.PatientName.getD "Unknown")
  ∧ (∀ k ∈ fullMetadataKeys, k ≠ "patient_name" →
      metaGet (extract_metadata dsNoPixel) k = none)
  ∧ (∀ k ∈ minimalMetadataKeys, k ≠ "patient_name" →
      metaGet (extract_metadata dsRaising) k = none) := by
  refine ⟨?_, ?_, by decide, by decide⟩
  · by_cases hr : ds.metadataRaises <;>
      simp [extract_metadata, hr, minimalMetadataKeys, fullMetadataKeys]
  · by_cases hr : ds.metadataRaises <;>
      simp [extract_metadata, hr, metaGet, List.lookup]

/-- C7 witness: at the raising container the key list is the minimal one
and `study_uid` carries `null`. -/
theorem C7_metadata_defaults_witness :
    metaGet (extract_metadata dsRaising) "study_uid" = none
  ∧ metaGet (extract_metadata dsRaising) "patient_name" = some "Unknown" :=
  ⟨(C7_metadata_defaults dsRaising).2.2.2 "study_uid" (by decide) (by decide),
   by
    have h := (C7_metadata_defaults dsRaising).2.1
    simpa [dsRaising] using h⟩

/-- The PNG stream produced by the PIL save starts with the signature. -/
lemma pilSavePng_take8 (g : Grid ℕ) : (pilSavePng g).take 8 = PNG_SIGNATURE := by
  unfold pilSavePng PNG_SIGNATURE
  rfl

/-- C8: for every valid (non-empty) grid — floating-point or already
8-bit — the byte sequence of `array_to_png_bytes` begins with the fixed
8-byte PNG signature 89 50 4E 47 0D 0A 1A 0A; non-`uint8` input is
min-max normalised into `[0, 255]` before encoding (elementwise `normElem`,
with the constant-grid guard mapping to zeros). -/
theorem C8_png_signature (v : Grid ℚ) (u : Grid ℕ) (hv : gridElems v ≠ []) :
    (∃ b, array_to_png_bytes (.floatArr v) = .ok b ∧ b.take 8 = PNG_SIGNATURE)
  ∧ (∃ b, array_to_png_bytes (.uint8Arr u) = .ok b ∧ b.take 8 = PNG_SIGNATURE)
  ∧ (listMin (gridElems v) < listMax (gridElems v) →
      array_to_png_bytes (.floatArr v) = .ok (pilSavePng (gridMap (normElem v) v))
      ∧ ∀ x ∈ gridElems (gridMap (normElem v) v), x ≤ 255)
  ∧ (listMax (gridElems v) ≤ listMin (gridElems v) →
      array_to_png_bytes (.floatArr v)
        = .ok (pilSavePng (gridMap (fun _ => 0) v))) := by
  have hemp : (gridElems v).isEmpty = false := by
    cases h : gridElems v with
    | nil => exact absurd h hv
    | cons a l => rfl
  have hbound : listMin (gridElems v) < listMax (gridElems v) →
      ∀ x ∈ gridElems (gridMap (normElem v) v), x ≤ 255 := by
    intro hlt x hx
    rw [gridElems_gridMap] at hx
    rcases List.mem_map.mp hx with ⟨q, hq, rfl⟩
    have hmn : listMin (gridElems v) ≤ q := listMin_le _ q hq
    have hmx : q ≤ listMax (gridElems v) := le_listMax _ q hq
    have hd : (0 : ℚ) < listMax (gridElems v) - listMin (gridElems v) := by
      linarith
    have hr1 : (q - listMin (gridElems v))
        / (listMax (gridElems v) - listMin (gridElems v)) ≤ 1 := by
      rw [div_le_one hd]
      linarith
    have hr0 : (0 : ℚ) ≤ (q - listMin (gridElems v))
        / (listMax (gridElems v) - listMin (gridElems v)) :=
      div_nonneg (by linarith) (le_of_lt hd)
    have hle : (q - listMin (gridElems v))
        / (listMax (gridElems v) - listMin (gridElems v)) * 255 ≤ 255 := by
      nlinarith
    show (⌊(q - listMin (gridElems v))
        / (listMax (gridElems v) - listMin (gridElems v)) * 255⌋).toNat ≤ 255
    rw [Int.toNat_le]
    calc ⌊(q - listMin (gridElems v))
        / (listMax (gridElems v) - listMin (gridElems v)) * 255⌋
        ≤ ⌊(255 : ℚ)⌋ := Int.floor_le_floor hle
      _ = 255 := by norm_num
  by_cases hlt : listMin (gridElems v) < listMax (gridElems v)
  · have hfl : array_to_png_bytes (.floatArr v)
        = .ok (pilSavePng (gridMap (normElem v) v)) := by
      unfold array_to_png_bytes
      dsimp only
      rw [hemp]
      simp only [Bool.false_eq_true, if_false]
      rw [if_pos hlt]
    exact ⟨⟨_, hfl, pilSavePng_take8 _⟩, ⟨_, rfl, pilSavePng_take8 _⟩,
      fun _ => ⟨hfl, hbound hlt⟩, fun hle => absurd hlt (not_lt.mpr hle)⟩
  · have hfl : array_to_png_bytes (.floatArr v)
        = .ok (pilSavePng (gridMap (fun _ => 0) v)) := by
      unfold array_to_png_bytes
      dsimp only
      rw [hemp]
      simp only [Bool.false_eq_true, if_false]
      rw [if_neg hlt]
    exact ⟨⟨_, hfl, pilSavePng_take8 _⟩, ⟨_, rfl, pilSavePng_take8 _⟩,
      fun h => absurd h hlt, fun _ => hfl⟩

/-- C8 witness: the signature theorem instantiated at the float grid
`[[0, 510]]` and the `uint8` grid `[[7]]`. -/
theorem C8_png_signature_witness :
    ∃ b, array_to_png_bytes (.floatArr [[0, 510]]) = .ok b
      ∧ b.take 8 = PNG_SIGNATURE :=
  (C8_png_signature [[0, 510]] [[7]] (by decide)).1

/-! ### Upload validation (C10) -/

/-- A container whose study UID is present but empty (and SOP UID
present and non-empty). -/
def dsBlankStudy : Dataset :=
  { StudyInstanceUID := some "", SOPInstanceUID := some "sop-1" }

/-- C10 counterexample: the claim says a file is accepted whenever both
`study_uid` and `sop_uid` are present, but the code tests Python
truthiness (`not metadata.get(...)`), so a present-but-empty `study_uid`
is rejected with HTTP 400. -/
theorem C10_counterexample :
    dsBlankStudy.StudyInstanceUID ≠ none
  ∧ dsBlankStudy.SOPInstanceUID ≠ none
  ∧ metaGet (extract_metadata dsBlankStudy) "study_uid" = some ""
  ∧ metaGet (extract_metadata dsBlankStudy) "sop_uid" = some "sop-1"
  ∧ processUploadFile dsBlankStudy = .error (400, "Missing StudyInstanceUID") :=
  ⟨by decide, by decide, by decide, by decide, by rfl⟩

/-- C10 as amended: an upload is rejected with HTTP 400 (and not stored)
exactly when the extracted `study_uid` or `sop_uid` is falsy — absent or
the empty string; when both are present and non-empty the file is
accepted into storage under `<sop_uid>.dcm`. -/
theorem C10_upload_validation (ds : Dataset) :
    ((∃ m, processUploadFile ds = .error (400, m))
      ↔ (pyFalsy (metaGet (extract_metadata ds) "study_uid") = true
        ∨ pyFalsy (metaGet (extract_metadata ds) "sop_uid") = true))
  ∧ (∀ t, metaGet (extract_metadata ds) "sop_uid" = some t → t ≠ "" →
      pyFalsy (metaGet (extract_metadata ds) "study_uid") = false →
      processUploadFile ds = .ok (t ++ ".dcm")) := by
  unfold processUploadFile
  by_cases h1 : pyFalsy (metaGet (extract_metadata ds) "study_uid") <;>
    by_cases h2 : pyFalsy (metaGet (extract_metadata ds) "sop_uid") <;>
    simp [h1, h2]
  · intro t ht
    rw [ht] at h2
    simpa [pyFalsy] using h2
  · intro t ht hne
    rw [ht]
    rfl

/-- A container with both UIDs present and non-empty. -/
def dsGoodUID : Dataset :=
  { StudyInstanceUID := some "1.2.3", SOPInstanceUID := some "1.2.3.4" }

/-- C10 witness: the amended validation theorem instantiated at a
container with both UIDs present and non-empty. -/
theorem C10_upload_validation_witness :
    processUploadFile dsGoodUID = .ok ("1.2.3.4" ++ ".dcm") :=
  (C10_upload_validation dsGoodUID).2 "1.2.3.4" (by decide) (by decide)
    (by decide)
